import Mathlib

/-!
Shallow embedding of the processor Lambda of the event-notification
service (src/lambdas/processor/index.js).

The effectful pieces (DynamoDB puts and queries, SES email sends, webhook
HTTP fetches) are modelled by an explicit environment `Env` of oracles and
an explicit world state `ProcState` (the Events table and the Notifications
table).  Each JavaScript `async` function becomes a Lean function that
takes the environment and the current state and returns the new state
together with an `Except String` result; a thrown JS error is the
`.error msg` case, and side effects already performed survive a throw
(the state is returned alongside the error).
-/

namespace Processor

/-- Source constant `SEVERITY_LEVELS`: severity levels in order, index is
the rank (LOW=0, MEDIUM=1, HIGH=2, CRITICAL=3). -/
def SEVERITY_LEVELS : List String := ["LOW", "MEDIUM", "HIGH", "CRITICAL"]

/-- JavaScript `Array.prototype.indexOf`: first index of `y`, or `-1`
when `y` does not occur. -/
def jsIndexOf : List String → String → Int
  | [], _ => -1
  | x :: xs, y =>
    if x == y then 0
    else
      let r := jsIndexOf xs y
      if r == -1 then -1 else r + 1

/-- Source function `meetsSeverityThreshold(eventSeverity, filterSeverity)`:
compares the `indexOf` ranks with `>=`. -/
def meetsSeverityThreshold (eventSeverity filterSeverity : String) : Bool :=
  let eventLevel := jsIndexOf SEVERITY_LEVELS eventSeverity
  let filterLevel := jsIndexOf SEVERITY_LEVELS filterSeverity
  decide (eventLevel ≥ filterLevel)

/-- An event as consumed by the processor (wire shape
`{eventId, eventType, severity, title, details, receivedAt}`; `details`
is opaque to the core and kept as an optional blob). -/
structure Event where
  eventId : String
  eventType : String
  severity : String
  title : String
  details : Option String
  receivedAt : String
deriving DecidableEq, Repr

/-- A subscription record as stored in the Subscriptions table. -/
structure Subscription where
  subscriptionId : String
  eventType : String
  severityFilter : String
  channel : String
  target : String
  active : Bool
deriving DecidableEq, Repr

/-- The item `storeEvent` writes to the Events table: the event spread
together with `processedAt` and `status`. -/
structure StoredEvent where
  event : Event
  processedAt : String
  status : String
deriving DecidableEq, Repr

/-- The item `recordNotification` writes to the Notifications table. -/
structure NotificationRecord where
  eventId : String
  subscriptionId : String
  channel : String
  target : String
  status : String
  attemptedAt : String
  errorMessage : Option String
deriving DecidableEq, Repr

/-- Outcome of the webhook `fetch`: either the promise rejects (network
error) or it resolves with an HTTP status code and status text. -/
inductive FetchResult where
  | reject (msg : String)
  | resolve (status : Nat) (statusText : String)
deriving DecidableEq, Repr

/-- The external world the processor talks to: whether the two DynamoDB
writes/reads fail (and with what message), the contents of the
Subscriptions table, the SES outcome per subscription, the webhook fetch
outcome per subscription, and the clock (`new Date().toISOString()`). -/
structure Env where
  eventsPutError : Option String
  subsQueryError : Option String
  subsTable : List Subscription
  emailError : Subscription → Option String
  fetchResult : Subscription → FetchResult
  recordError : String → String → Option String
  now : String

/-- The mutable world state: the Events table and the Notifications
table, each modelled as the sequence of items put into it. -/
structure ProcState where
  eventsTable : List StoredEvent
  notifications : List NotificationRecord
deriving DecidableEq, Repr

/-- The empty world state. -/
def initState : ProcState := ⟨[], []⟩

/-- Source function `storeEvent(event)`: put `{...event, processedAt: now, status:
"PROCESSED"}` into the Events table; a rejected put is a thrown error
with nothing written. -/
def storeEvent (env : Env) (st : ProcState) (e : Event) :
    ProcState × Except String Unit :=
  match env.eventsPutError with
  | some m => (st, .error m)
  | none =>
    ({ st with eventsTable :=
        st.eventsTable ++ [{ event := e, processedAt := env.now, status := "PROCESSED" }] },
     .ok ())

/-- Source function `findMatchingSubscriptions(eventType)`: DynamoDB query on the
`eventType-index` with `KeyConditionExpression eventType = :et` and
`FilterExpression active = :active` (with `:active = true`); returns the
matching items, or throws when the query is rejected. -/
def findMatchingSubscriptions (env : Env) (eventType : String) :
    Except String (List Subscription) :=
  match env.subsQueryError with
  | some m => .error m
  | none => .ok (env.subsTable.filter fun s => s.eventType == eventType && s.active)

/-- Source function `sendEmailNotification(subscription, event)`: SES send; the oracle
says whether the send rejects and with what message. -/
def sendEmailNotification (env : Env) (s : Subscription) (_e : Event) :
    Except String Unit :=
  match env.emailError s with
  | some m => .error m
  | none => .ok ()

/-- Fetch API `response.ok`: status in the range 200..299. -/
def responseOk (status : Nat) : Bool := 200 ≤ status && status ≤ 299

/-- Source function `sendWebhookNotification(subscription, event)`: HTTP POST via
`fetch`; a rejected fetch throws its message, a non-2xx response throws
`Webhook failed: status statusText`. -/
def sendWebhookNotification (env : Env) (s : Subscription) (_e : Event) :
    Except String Unit :=
  match env.fetchResult s with
  | .reject m => .error m
  | .resolve status statusText =>
    if responseOk status then .ok ()
    else .error ("Webhook failed: " ++ toString status ++ " " ++ statusText)

/-- Item built inside `recordNotification`: `errorMessage` is attached only when truthy
(non-null and non-empty). -/
def mkNotificationRecord (env : Env) (eventId : String) (s : Subscription)
    (status : String) (errorMessage : Option String) : NotificationRecord :=
  { eventId := eventId
    subscriptionId := s.subscriptionId
    channel := s.channel
    target := s.target
    status := status
    attemptedAt := env.now
    errorMessage :=
      match errorMessage with
      | some m => if m == "" then none else some m
      | none => none }

/-- Source function `recordNotification`: put the record into the Notifications table; a
rejected put is a thrown error with nothing written.  The oracle is keyed
by `(subscriptionId, status)`, the two coordinates that distinguish the
put calls made while processing a single event. -/
def recordNotification (env : Env) (st : ProcState) (eventId : String)
    (s : Subscription) (status : String) (errorMessage : Option String) :
    ProcState × Except String Unit :=
  match env.recordError s.subscriptionId status with
  | some m => (st, .error m)
  | none =>
    ({ st with notifications :=
        st.notifications ++ [mkNotificationRecord env eventId s status errorMessage] },
     .ok ())

/-- The dispatch at the head of the `try` block of `processEvent`:
`EMAIL` goes to SES, `WEBHOOK` goes to fetch, any other channel value
falls through both branches without error and without any transport
call. -/
def deliver (env : Env) (s : Subscription) (e : Event) : Except String Unit :=
  if s.channel == "EMAIL" then sendEmailNotification env s e
  else if s.channel == "WEBHOOK" then sendWebhookNotification env s e
  else .ok ()

/-- The `try`/`catch` body of the per-subscription loop, after the
severity-threshold guard: deliver, then record `SENT` and count
(`.ok true`); any error thrown by delivery or by the `SENT` record write
is caught and a `FAILED` record with the error message is written instead
(`.ok false`, not counted); an error thrown by the `FAILED` record write
itself is not caught and propagates. -/
def trySubscription (env : Env) (e : Event) (st : ProcState) (s : Subscription) :
    ProcState × Except String Bool :=
  match deliver env s e with
  | .ok _ =>
    match recordNotification env st e.eventId s "SENT" none with
    | (st2, .ok _) => (st2, .ok true)
    | (st2, .error m) =>
      match recordNotification env st2 e.eventId s "FAILED" (some m) with
      | (st3, .ok _) => (st3, .ok false)
      | (st3, .error m2) => (st3, .error m2)
  | .error m =>
    match recordNotification env st e.eventId s "FAILED" (some m) with
    | (st2, .ok _) => (st2, .ok false)
    | (st2, .error m2) => (st2, .error m2)

/-- The `for (const subscription of subscriptions)` loop of
`processEvent`, threading the notification count: candidates below the
severity threshold are skipped (`continue`), and an uncaught error aborts
the rest of the loop. -/
def processSubscriptions (env : Env) (e : Event) :
    ProcState → Nat → List Subscription → ProcState × Except String Nat
  | st, count, [] => (st, .ok count)
  | st, count, s :: rest =>
    if meetsSeverityThreshold e.severity s.severityFilter then
      match trySubscription env e st s with
      | (st2, .ok counted) =>
          processSubscriptions env e st2 (if counted then count + 1 else count) rest
      | (st2, .error m) => (st2, .error m)
    else
      processSubscriptions env e st count rest

/-- Source function `processEvent(event)`: store the event, query the candidate
subscriptions, run the per-subscription loop, and return the notification
count.  Errors from the store, the query, or an uncaught record-write
error propagate; side effects already performed survive. -/
def processEvent (env : Env) (st : ProcState) (e : Event) :
    ProcState × Except String Nat :=
  match storeEvent env st e with
  | (st1, .error m) => (st1, .error m)
  | (st1, .ok _) =>
    match findMatchingSubscriptions env e.eventType with
    | .error m => (st1, .error m)
    | .ok subs => processSubscriptions env e st1 0 subs

/-- The record that processing one threshold-passing candidate appends,
assuming the `FAILED` record write (if any) succeeds: a `SENT` record when
delivery and the `SENT` write succeed, otherwise a `FAILED` record
carrying the thrown message. -/
def predictedRecord (env : Env) (e : Event) (s : Subscription) : NotificationRecord :=
  match deliver env s e with
  | .ok _ =>
    match env.recordError s.subscriptionId "SENT" with
    | none => mkNotificationRecord env e.eventId s "SENT" none
    | some m => mkNotificationRecord env e.eventId s "FAILED" (some m)
  | .error m => mkNotificationRecord env e.eventId s "FAILED" (some m)

/-- Whether processing one threshold-passing candidate increments the
notification count: delivery and the `SENT` record write both succeed. -/
def countedSent (env : Env) (e : Event) (s : Subscription) : Bool :=
  match deliver env s e with
  | .ok _ => (env.recordError s.subscriptionId "SENT").isNone
  | .error _ => false

/-- Spec-side severity rank over the fixed four levels
(LOW=0, MEDIUM=1, HIGH=2, CRITICAL=3). -/
def severityRankSpec (level : String) : Nat :=
  if level = "LOW" then 0
  else if level = "MEDIUM" then 1
  else if level = "HIGH" then 2
  else 3

/-- Spec-side eligibility of a subscription for an event: active, exact
event-type match, and severity threshold met. -/
def eligibleSpec (e : Event) (s : Subscription) : Bool :=
  s.active && s.eventType == e.eventType &&
    meetsSeverityThreshold e.severity s.severityFilter

/-- Fixture: an active EMAIL subscription to `deployment` at threshold LOW. -/
def subEmailLow : Subscription :=
  ⟨"sub-email", "deployment", "LOW", "EMAIL", "ops@example.com", true⟩

/-- Fixture: an active WEBHOOK subscription to `deployment` at threshold LOW. -/
def subWebhookLow : Subscription :=
  ⟨"sub-hook", "deployment", "LOW", "WEBHOOK", "https://example.com/hook", true⟩

/-- Fixture: an active subscription to `deployment` with the unrecognized
channel value `SMS`. -/
def subSmsLow : Subscription :=
  ⟨"sub-sms", "deployment", "LOW", "SMS", "+15550100", true⟩

/-- Fixture: an inactive EMAIL subscription to `deployment`. -/
def subInactive : Subscription :=
  ⟨"sub-off", "deployment", "LOW", "EMAIL", "off@example.com", false⟩

/-- Fixture: an active subscription to `deployment` whose `severityFilter`
is the invalid value `WILD`, outside the fixed severity set. -/
def subWildFilter : Subscription :=
  ⟨"sub-wild", "deployment", "WILD", "EMAIL", "wild@example.com", true⟩

/-- Fixture: a HIGH-severity `deployment` event. -/
def evHigh : Event :=
  ⟨"evt-1", "deployment", "HIGH", "deploy done", none, "2024-01-01T00:00:00Z"⟩

/-- Fixture: a LOW-severity `deployment` event. -/
def evLow : Event :=
  ⟨"evt-2", "deployment", "LOW", "minor event", none, "2024-01-01T00:00:00Z"⟩

/-- Fixture: a benign environment — all stores up, email and webhook
transports succeeding, empty Subscriptions table. -/
def baseEnv : Env :=
  { eventsPutError := none
    subsQueryError := none
    subsTable := []
    emailError := fun _ => none
    fetchResult := fun _ => .resolve 200 "OK"
    recordError := fun _ _ => none
    now := "2024-01-01T00:00:01Z" }

/-- Fixture: two healthy candidates but a Notifications store that
rejects every write. -/
def envRecorderDown : Env :=
  { baseEnv with
    subsTable := [subEmailLow, subWebhookLow]
    recordError := fun _ _ => some "StorageError" }

/-- Fixture: one unknown-channel candidate, with both transports broken
(to show neither is consulted). -/
def envUnknownChannel : Env :=
  { baseEnv with
    subsTable := [subSmsLow]
    emailError := fun _ => some "SES down"
    fetchResult := fun _ => .reject "network down" }

/-- Fixture: one candidate whose `severityFilter` is invalid. -/
def envWildFilter : Env :=
  { baseEnv with subsTable := [subWildFilter] }

/-- Fixture: one inactive candidate of the queried event type. -/
def envInactiveOnly : Env :=
  { baseEnv with subsTable := [subInactive] }

/-- Fixture: healthy stores, email delivery failing for every
subscription (a delivery error, not a storage error). -/
def envEmailDown : Env :=
  { baseEnv with
    subsTable := [subEmailLow, subWebhookLow]
    emailError := fun _ => some "SES rejected the send" }

/-- Fixture: the `SENT` record write fails for every subscription while
the `FAILED` record write succeeds. -/
def envSentWriteDown : Env :=
  { baseEnv with
    subsTable := [subEmailLow, subWebhookLow]
    recordError := fun _ status => if status == "SENT" then some "StorageError" else none }

/-- Fixture: Subscriptions store query rejected. -/
def envQueryDown : Env :=
  { baseEnv with
    subsTable := [subEmailLow]
    subsQueryError := some "StorageError" }

/-- Fixture: one webhook candidate whose endpoint answers HTTP 500. -/
def envWebhook500 : Env :=
  { baseEnv with
    subsTable := [subWebhookLow]
    fetchResult := fun _ => .resolve 500 "Internal Server Error" }

/-- Fixture: a `deployment` event whose severity is the invalid value
`BOGUS`, outside the fixed severity set. -/
def evBogusSev : Event :=
  ⟨"evt-3", "deployment", "BOGUS", "odd event", none, "2024-01-01T00:00:00Z"⟩

/-- Fixture: one healthy candidate with a valid severity filter. -/
def envValidFilters : Env :=
  { baseEnv with subsTable := [subEmailLow] }

end Processor

namespace Processor

/-- C3: over the four valid severity levels, the threshold check agrees
with the rank comparison rank(e) ≥ rank(f). -/
theorem meetsSeverityThreshold_eq_rank_ge (e f : String)
    (he : e ∈ SEVERITY_LEVELS) (hf : f ∈ SEVERITY_LEVELS) :
    meetsSeverityThreshold e f = decide (severityRankSpec e ≥ severityRankSpec f) := by
  fin_cases he <;> fin_cases hf <;> decide

/-- Witness for C3 at the concrete pair (HIGH, MEDIUM). -/
theorem meetsSeverityThreshold_eq_rank_ge_witness :
    meetsSeverityThreshold "HIGH" "MEDIUM" =
      decide (severityRankSpec "HIGH" ≥ severityRankSpec "MEDIUM") :=
  meetsSeverityThreshold_eq_rank_ge "HIGH" "MEDIUM" (by decide) (by decide)

/-- JavaScript `indexOf` returns -1 exactly on values absent from the list. -/
theorem jsIndexOf_eq_neg_one_of_not_mem (xs : List String) (y : String)
    (h : y ∉ xs) : jsIndexOf xs y = -1 := by
  induction xs with
  | nil => rfl
  | cons x xs ih =>
    simp only [List.mem_cons, not_or] at h
    have hxy : (x == y) = false := by
      simp only [beq_eq_false_iff_ne]
      exact fun e => h.1 e.symm
    simp [jsIndexOf, hxy, ih h.2]

/-- JavaScript `indexOf` is nonnegative on values present in the list. -/
theorem jsIndexOf_nonneg_of_mem (xs : List String) (y : String)
    (h : y ∈ xs) : 0 ≤ jsIndexOf xs y := by
  induction xs with
  | nil => simp at h
  | cons x xs ih =>
    by_cases hxy : (x == y) = true
    · simp [jsIndexOf, hxy]
    · have hy : y ∈ xs := by
        rcases List.mem_cons.mp h with h1 | h1
        · exact absurd (by simp [h1]) hxy
        · exact h1
      have hr := ih hy
      have hrne : (jsIndexOf xs y == -1) = false := by
        simp only [beq_eq_false_iff_ne]
        omega
      simp only [jsIndexOf, hxy, if_false, hrne, Bool.false_eq_true]
      omega

/-- Per-candidate characterization when the `FAILED` record write for
this candidate succeeds: the try/catch appends exactly the predicted
record and reports whether the count is incremented. -/
theorem trySubscription_eq (env : Env) (e : Event) (st : ProcState)
    (s : Subscription)
    (hrecF : env.recordError s.subscriptionId "FAILED" = none) :
    trySubscription env e st s =
      ({ st with notifications := st.notifications ++ [predictedRecord env e s] },
       .ok (countedSent env e s)) := by
  unfold trySubscription predictedRecord countedSent recordNotification
  cases hdel : deliver env s e with
  | ok u =>
    cases hrec : env.recordError s.subscriptionId "SENT" with
    | none => simp
    | some m => simp [hrecF]
  | error m => simp [hrecF]

/-- Whenever the try/catch returns without propagating an error it has
appended exactly one record, carrying this candidate's subscription id. -/
theorem trySubscription_ok_shape (env : Env) (e : Event) (st : ProcState)
    (s : Subscription) (st2 : ProcState) (c : Bool)
    (h : trySubscription env e st s = (st2, .ok c)) :
    ∃ r : NotificationRecord, r.subscriptionId = s.subscriptionId ∧
      st2 = { st with notifications := st.notifications ++ [r] } := by
  unfold trySubscription recordNotification at h
  cases hdel : deliver env s e with
  | ok u =>
    rw [hdel] at h
    cases hrec : env.recordError s.subscriptionId "SENT" with
    | none =>
      rw [hrec] at h
      simp only [Prod.mk.injEq] at h
      exact ⟨mkNotificationRecord env e.eventId s "SENT" none, rfl, h.1.symm⟩
    | some m =>
      rw [hrec] at h
      cases hrecF : env.recordError s.subscriptionId "FAILED" with
      | none =>
        rw [hrecF] at h
        simp only [Prod.mk.injEq] at h
        exact ⟨mkNotificationRecord env e.eventId s "FAILED" (some m), rfl, h.1.symm⟩
      | some m2 =>
        rw [hrecF] at h
        simp only [Prod.mk.injEq] at h
        exact absurd h.2 (by simp)
  | error m =>
    rw [hdel] at h
    cases hrecF : env.recordError s.subscriptionId "FAILED" with
    | none =>
      rw [hrecF] at h
      simp only [Prod.mk.injEq] at h
      exact ⟨mkNotificationRecord env e.eventId s "FAILED" (some m), rfl, h.1.symm⟩
    | some m2 =>
      rw [hrecF] at h
      simp only [Prod.mk.injEq] at h
      exact absurd h.2 (by simp)

/-- Full characterization of the per-subscription loop when no `FAILED`
record write fails: it never propagates an error, appends one predicted
record per threshold-passing candidate in order, and counts the
candidates whose delivery and `SENT` write both succeed. -/
theorem processSubscriptions_eq (env : Env) (e : Event)
    (hrecF : ∀ sid, env.recordError sid "FAILED" = none) :
    ∀ (subs : List Subscription) (st : ProcState) (count : Nat),
      processSubscriptions env e st count subs =
        ({ st with notifications := st.notifications ++
            ((subs.filter fun s => meetsSeverityThreshold e.severity s.severityFilter).map
              (predictedRecord env e)) },
         .ok (count +
           ((subs.filter fun s =>
               meetsSeverityThreshold e.severity s.severityFilter &&
               countedSent env e s)).length)) := by
  intro subs
  induction subs with
  | nil => intro st count; simp [processSubscriptions]
  | cons s rest ih =>
    intro st count
    by_cases hpass : meetsSeverityThreshold e.severity s.severityFilter = true
    · cases hcnt : countedSent env e s with
      | true =>
        simp [processSubscriptions, hpass,
          trySubscription_eq env e st s (hrecF s.subscriptionId), ih, hcnt,
          List.filter_cons, List.append_assoc, Nat.add_comm, Nat.add_assoc,
          Nat.add_left_comm]
      | false =>
        simp [processSubscriptions, hpass,
          trySubscription_eq env e st s (hrecF s.subscriptionId), ih, hcnt,
          List.filter_cons, List.append_assoc]
    · have hpass' : meetsSeverityThreshold e.severity s.severityFilter = false := by
        simpa using hpass
      simp [processSubscriptions, hpass', ih, List.filter_cons]

/-- When the loop completes without propagating an error, it has written
exactly one record per threshold-passing candidate, and every new record
carries the subscription id of some threshold-passing candidate. -/
theorem processSubscriptions_ok_count (env : Env) (e : Event) :
    ∀ (subs : List Subscription) (st : ProcState) (count : Nat)
      (st' : ProcState) (n : Nat),
      processSubscriptions env e st count subs = (st', .ok n) →
      st'.notifications.length = st.notifications.length +
        ((subs.filter fun s => meetsSeverityThreshold e.severity s.severityFilter)).length ∧
      ∀ r ∈ st'.notifications, r ∈ st.notifications ∨
        ∃ s, s ∈ subs ∧ meetsSeverityThreshold e.severity s.severityFilter = true ∧
          r.subscriptionId = s.subscriptionId := by
  intro subs
  induction subs with
  | nil =>
    intro st count st' n h
    simp only [processSubscriptions, Prod.mk.injEq] at h
    rcases h with ⟨h1, _⟩
    subst h1
    exact ⟨by simp, fun r hr => Or.inl hr⟩
  | cons s rest ih =>
    intro st count st' n h
    by_cases hpass : meetsSeverityThreshold e.severity s.severityFilter = true
    · rw [processSubscriptions, if_pos hpass] at h
      rcases htry : trySubscription env e st s with ⟨st2, res⟩
      rw [htry] at h
      cases res with
      | error m =>
        simp only [Prod.mk.injEq] at h
        exact absurd h.2 (by simp)
      | ok counted =>
        rcases trySubscription_ok_shape env e st s st2 counted htry with ⟨r0, hr0, hst2⟩
        rcases ih st2 (if counted then count + 1 else count) st' n h with ⟨hlen, hmem⟩
        constructor
        · rw [hlen, hst2]
          simp [List.filter_cons, hpass, Nat.add_assoc, Nat.add_comm, Nat.add_left_comm]
        · intro r hr
          rcases hmem r hr with hr1 | ⟨s1, hs1, hp1, hid1⟩
          · rw [hst2] at hr1
            simp only [List.mem_append, List.mem_singleton] at hr1
            rcases hr1 with hr2 | hr2
            · exact Or.inl hr2
            · exact Or.inr ⟨s, List.mem_cons_self s rest, hpass, hr2 ▸ hr0⟩
          · exact Or.inr ⟨s1, List.mem_cons_of_mem s hs1, hp1, hid1⟩
    · rw [processSubscriptions, if_neg hpass] at h
      rcases ih st count st' n h with ⟨hlen, hmem⟩
      have hpass' : meetsSeverityThreshold e.severity s.severityFilter = false := by
        simpa using hpass
      constructor
      · rw [hlen]
        simp [List.filter_cons, hpass']
      · intro r hr
        rcases hmem r hr with hr1 | ⟨s1, hs1, hp1, hid1⟩
        · exact Or.inl hr1
        · exact Or.inr ⟨s1, List.mem_cons_of_mem s hs1, hp1, hid1⟩

/-- A loop over candidates that all fail the severity threshold writes
nothing and returns the count unchanged. -/
theorem processSubscriptions_of_all_skip (env : Env) (e : Event) :
    ∀ (subs : List Subscription) (st : ProcState) (count : Nat),
      (∀ s ∈ subs, meetsSeverityThreshold e.severity s.severityFilter = false) →
      processSubscriptions env e st count subs = (st, .ok count) := by
  intro subs
  induction subs with
  | nil => intro st count _; rfl
  | cons s rest ih =>
    intro st count hall
    rw [processSubscriptions, if_neg (by simp [hall s (List.mem_cons_self s rest)])]
    exact ih st count fun t ht => hall t (List.mem_cons_of_mem s ht)

/-- When the event put and the subscription query both succeed,
`processEvent` stores the event as PROCESSED and runs the loop over the
store-side candidates (type match and `active = true`). -/
theorem processEvent_eq_loop (env : Env) (st : ProcState) (e : Event)
    (hput : env.eventsPutError = none) (hq : env.subsQueryError = none) :
    processEvent env st e =
      processSubscriptions env e
        { st with eventsTable :=
            st.eventsTable ++ [{ event := e, processedAt := env.now, status := "PROCESSED" }] }
        0
        (env.subsTable.filter fun s => s.eventType == e.eventType && s.active) := by
  unfold processEvent storeEvent findMatchingSubscriptions
  rw [hput, hq]

/-- A rejected Events-table put makes `processEvent` throw with nothing
written. -/
theorem processEvent_of_eventsPut_error (env : Env) (st : ProcState) (e : Event)
    (m : String) (hput : env.eventsPutError = some m) :
    processEvent env st e = (st, .error m) := by
  unfold processEvent storeEvent
  rw [hput]

/-- A rejected subscription query makes `processEvent` throw after the
event has been stored. -/
theorem processEvent_of_query_error (env : Env) (st : ProcState) (e : Event)
    (m : String) (hput : env.eventsPutError = none)
    (hq : env.subsQueryError = some m) :
    processEvent env st e =
      ({ st with eventsTable :=
          st.eventsTable ++ [{ event := e, processedAt := env.now, status := "PROCESSED" }] },
       .error m) := by
  unfold processEvent storeEvent findMatchingSubscriptions
  rw [hput, hq]

/-- C4: when `processEvent` completes successfully, the number of
notification records written equals the number of stored subscriptions
that are active, match the event type, and pass the severity threshold;
and every record written belongs to an active subscription — in
particular an inactive subscription never produces a record. -/
theorem processEvent_record_count (env : Env) (e : Event) (st' : ProcState)
    (n : Nat) (h : processEvent env initState e = (st', .ok n)) :
    st'.notifications.length = (env.subsTable.filter (eligibleSpec e)).length ∧
    ∀ r ∈ st'.notifications, ∃ s, s ∈ env.subsTable ∧ s.active = true ∧
      r.subscriptionId = s.subscriptionId := by
  cases hpe : env.eventsPutError with
  | some m =>
    rw [processEvent_of_eventsPut_error env initState e m hpe] at h
    exact Except.noConfusion (congrArg Prod.snd h)
  | none =>
    cases hqe : env.subsQueryError with
    | some m =>
      rw [processEvent_of_query_error env initState e m hpe hqe] at h
      exact Except.noConfusion (congrArg Prod.snd h)
    | none =>
      rw [processEvent_eq_loop env initState e hpe hqe] at h
      rcases processSubscriptions_ok_count env e _ _ 0 st' n h with ⟨hlen, hmem⟩
      constructor
      · rw [hlen]
        simp only [initState, List.length_nil, Nat.zero_add]
        rw [List.filter_filter]
        apply congrArg
        apply List.filter_congr
        intro s _
        simp [eligibleSpec, Bool.and_comm, Bool.and_left_comm, Bool.and_assoc]
      · intro r hr
        rcases hmem r hr with hr0 | ⟨s, hs, _, hid⟩
        · simp [initState] at hr0
        · rcases List.mem_filter.mp hs with ⟨hst, hcond⟩
          simp only [Bool.and_eq_true, beq_iff_eq] at hcond
          exact ⟨s, hst, hcond.2, hid⟩

/-- Witness for C4: a healthy run over one eligible and one inactive
subscription writes exactly one record, and it belongs to the active
subscription. -/
theorem processEvent_record_count_witness :
    ((processEvent { baseEnv with subsTable := [subEmailLow, subInactive] }
        initState evHigh).1.notifications.length =
      (({ baseEnv with subsTable := [subEmailLow, subInactive] } : Env).subsTable.filter
        (eligibleSpec evHigh)).length) ∧
    ∀ r ∈ (processEvent { baseEnv with subsTable := [subEmailLow, subInactive] }
        initState evHigh).1.notifications,
      ∃ s, s ∈ ({ baseEnv with subsTable := [subEmailLow, subInactive] } : Env).subsTable ∧
        s.active = true ∧ r.subscriptionId = s.subscriptionId :=
  processEvent_record_count { baseEnv with subsTable := [subEmailLow, subInactive] }
    evHigh _ _ rfl

/-- C8: if the event put succeeds and the subscription query then fails,
`processEvent` propagates the storage error, zero notification records
are written, and the event has already been persisted with status
PROCESSED and a `processedAt` timestamp. -/
theorem processEvent_query_failure_event_persisted (env : Env) (e : Event)
    (m : String) (hput : env.eventsPutError = none)
    (hq : env.subsQueryError = some m) :
    processEvent env initState e =
      ({ eventsTable := [{ event := e, processedAt := env.now, status := "PROCESSED" }],
         notifications := [] }, .error m) := by
  unfold processEvent storeEvent findMatchingSubscriptions
  rw [hput, hq]
  rfl

/-- Witness for C8 on a concrete environment whose subscription query is
rejected. -/
theorem processEvent_query_failure_event_persisted_witness :
    processEvent envQueryDown initState evHigh =
      ({ eventsTable :=
          [{ event := evHigh, processedAt := envQueryDown.now, status := "PROCESSED" }],
         notifications := [] }, .error "StorageError") :=
  processEvent_query_failure_event_persisted envQueryDown evHigh "StorageError" rfl rfl

/-- The predicted record always carries this candidate's subscription id. -/
theorem predictedRecord_subscriptionId (env : Env) (e : Event) (s : Subscription) :
    (predictedRecord env e s).subscriptionId = s.subscriptionId := by
  unfold predictedRecord
  cases deliver env s e with
  | ok u => cases env.recordError s.subscriptionId "SENT" <;> rfl
  | error m => rfl

/-- A failed delivery yields a FAILED predicted record. -/
theorem predictedRecord_status_of_error (env : Env) (e : Event) (s : Subscription)
    (m : String) (hdel : deliver env s e = .error m) :
    (predictedRecord env e s).status = "FAILED" := by
  unfold predictedRecord
  rw [hdel]
  rfl

/-- A successful delivery with a healthy `SENT` write yields a SENT
predicted record. -/
theorem predictedRecord_status_of_ok (env : Env) (e : Event) (s : Subscription)
    (hdel : deliver env s e = .ok ())
    (hrecS : env.recordError s.subscriptionId "SENT" = none) :
    (predictedRecord env e s).status = "SENT" := by
  unfold predictedRecord
  rw [hdel, hrecS]
  rfl

/-- C1: with a reliable audit recorder, a delivery failure on one
subscription never aborts the rest: `processEvent` completes without
propagating an error and every active, type-matching, threshold-passing
subscription gets its own record — FAILED when its delivery threw, SENT
when its delivery succeeded. -/
theorem processEvent_isolates_delivery_failures (env : Env) (e : Event)
    (hrec : ∀ sid status, env.recordError sid status = none)
    (hput : env.eventsPutError = none) (hq : env.subsQueryError = none) :
    ∃ st' n, processEvent env initState e = (st', .ok n) ∧
      ∀ s ∈ env.subsTable, s.active = true → s.eventType = e.eventType →
        meetsSeverityThreshold e.severity s.severityFilter = true →
        ∃ r ∈ st'.notifications, r.subscriptionId = s.subscriptionId ∧
          (∀ m, deliver env s e = .error m → r.status = "FAILED") ∧
          (deliver env s e = .ok () → r.status = "SENT") := by
  rw [processEvent_eq_loop env initState e hput hq,
    processSubscriptions_eq env e (fun sid => hrec sid "FAILED")]
  refine ⟨_, _, rfl, ?_⟩
  intro s hs hact het hpass
  refine ⟨predictedRecord env e s, ?_, predictedRecord_subscriptionId env e s, ?_, ?_⟩
  · simp only [initState, List.nil_append, List.mem_map]
    exact ⟨s, List.mem_filter.mpr ⟨List.mem_filter.mpr ⟨hs, by simp [het, hact]⟩, hpass⟩, rfl⟩
  · intro m hdel
    exact predictedRecord_status_of_error env e s m hdel
  · intro hdel
    exact predictedRecord_status_of_ok env e s hdel (hrec s.subscriptionId "SENT")

/-- Witness for C1: email delivery fails for the EMAIL candidate while
the WEBHOOK candidate succeeds; both still get their own record with the
right status. -/
theorem processEvent_isolates_delivery_failures_witness :
    ∃ st' n, processEvent envEmailDown initState evHigh = (st', .ok n) ∧
      ∀ s ∈ envEmailDown.subsTable, s.active = true → s.eventType = evHigh.eventType →
        meetsSeverityThreshold evHigh.severity s.severityFilter = true →
        ∃ r ∈ st'.notifications, r.subscriptionId = s.subscriptionId ∧
          (∀ m, deliver envEmailDown s evHigh = .error m → r.status = "FAILED") ∧
          (deliver envEmailDown s evHigh = .ok () → r.status = "SENT") :=
  processEvent_isolates_delivery_failures envEmailDown evHigh (fun _ _ => rfl) rfl rfl

/-- C2 counterexample: when the Notifications store rejects every write,
the first candidate's record failure is rethrown out of `processEvent` —
the loop is aborted, the second candidate is never attempted, and the
recording error propagates to the caller. -/
theorem recordFailure_crashes_processing :
    processEvent envRecorderDown initState evHigh =
      ({ eventsTable :=
          [{ event := evHigh, processedAt := envRecorderDown.now, status := "PROCESSED" }],
         notifications := [] }, .error "StorageError") := rfl

/-- C2 (amended): a failing `SENT` record write is caught and replaced by
a `FAILED` record write; provided the `FAILED` record writes succeed, the
loop continues over every remaining candidate (each still gets a record)
and no recording error propagates. -/
theorem processEvent_survives_sent_record_failures (env : Env) (e : Event)
    (hrecF : ∀ sid, env.recordError sid "FAILED" = none)
    (hput : env.eventsPutError = none) (hq : env.subsQueryError = none) :
    ∃ st' n, processEvent env initState e = (st', .ok n) ∧
      ∀ s ∈ env.subsTable, s.active = true → s.eventType = e.eventType →
        meetsSeverityThreshold e.severity s.severityFilter = true →
        ∃ r ∈ st'.notifications, r.subscriptionId = s.subscriptionId := by
  rw [processEvent_eq_loop env initState e hput hq,
    processSubscriptions_eq env e hrecF]
  refine ⟨_, _, rfl, ?_⟩
  intro s hs hact het hpass
  refine ⟨predictedRecord env e s, ?_, predictedRecord_subscriptionId env e s⟩
  simp only [initState, List.nil_append, List.mem_map]
  exact ⟨s, List.mem_filter.mpr ⟨List.mem_filter.mpr ⟨hs, by simp [het, hact]⟩, hpass⟩, rfl⟩

/-- Witness for amended C2: the `SENT` write is rejected for every
candidate while the `FAILED` write succeeds; processing still completes
and both candidates get a record. -/
theorem processEvent_survives_sent_record_failures_witness :
    ∃ st' n, processEvent envSentWriteDown initState evHigh = (st', .ok n) ∧
      ∀ s ∈ envSentWriteDown.subsTable, s.active = true →
        s.eventType = evHigh.eventType →
        meetsSeverityThreshold evHigh.severity s.severityFilter = true →
        ∃ r ∈ st'.notifications, r.subscriptionId = s.subscriptionId :=
  processEvent_survives_sent_record_failures envSentWriteDown evHigh
    (fun _ => rfl) rfl rfl

/-- With an event severity outside the fixed set, the threshold check
matches exactly the subscriptions whose filter is also outside the set
(both ranks are -1). -/
theorem meetsSeverityThreshold_invalid_event (e f : String)
    (he : e ∉ SEVERITY_LEVELS) :
    meetsSeverityThreshold e f = decide (f ∉ SEVERITY_LEVELS) := by
  have h1 : jsIndexOf SEVERITY_LEVELS e = -1 :=
    jsIndexOf_eq_neg_one_of_not_mem SEVERITY_LEVELS e he
  by_cases hf : f ∈ SEVERITY_LEVELS
  · have h2 := jsIndexOf_nonneg_of_mem SEVERITY_LEVELS f hf
    have hR : decide (f ∉ SEVERITY_LEVELS) = false := by simp [hf]
    rw [hR]
    simp only [meetsSeverityThreshold, h1]
    rw [decide_eq_false_iff_not]
    omega
  · have h3 : jsIndexOf SEVERITY_LEVELS f = -1 :=
      jsIndexOf_eq_neg_one_of_not_mem SEVERITY_LEVELS f hf
    simp [meetsSeverityThreshold, h1, h3, hf]

/-- C6 counterexample: the invalid filter value `WILD` gets rank -1, so a
valid LOW-severity event passes its threshold; the candidate is not
skipped — delivery is attempted and a SENT record is written for it. -/
theorem invalid_filter_matches_counterexample :
    "WILD" ∉ SEVERITY_LEVELS ∧
    meetsSeverityThreshold "LOW" "WILD" = true ∧
    processEvent envWildFilter initState evLow =
      ({ eventsTable :=
          [{ event := evLow, processedAt := "2024-01-01T00:00:01Z", status := "PROCESSED" }],
         notifications :=
          [{ eventId := "evt-2", subscriptionId := "sub-wild", channel := "EMAIL",
             target := "wild@example.com", status := "SENT",
             attemptedAt := "2024-01-01T00:00:01Z", errorMessage := none }] },
       .ok 1) :=
  ⟨by decide, rfl, rfl⟩

/-- C6 (amended): an event severity outside the fixed set is a non-match
exactly for subscriptions whose own filter is valid (an invalid filter
ranks -1 and still matches); when every stored subscription has a valid
filter, such an event is processed without a crash, skipping every
candidate and writing zero notification records. -/
theorem invalid_event_severity_skips_valid_filters (env : Env) (e : Event)
    (f : String) (he : e.severity ∉ SEVERITY_LEVELS) :
    meetsSeverityThreshold e.severity f = decide (f ∉ SEVERITY_LEVELS) ∧
    ((∀ s ∈ env.subsTable, s.severityFilter ∈ SEVERITY_LEVELS) →
      env.eventsPutError = none → env.subsQueryError = none →
      processEvent env initState e =
        ({ eventsTable :=
            [{ event := e, processedAt := env.now, status := "PROCESSED" }],
           notifications := [] }, .ok 0)) := by
  constructor
  · exact meetsSeverityThreshold_invalid_event e.severity f he
  · intro hall hput hq
    have hskip : ∀ s ∈ (env.subsTable.filter fun s =>
        s.eventType == e.eventType && s.active),
        meetsSeverityThreshold e.severity s.severityFilter = false := by
      intro s hs
      rw [meetsSeverityThreshold_invalid_event e.severity s.severityFilter he]
      simp [hall s (List.mem_filter.mp hs).1]
    rw [processEvent_eq_loop env initState e hput hq,
      processSubscriptions_of_all_skip env e _ _ 0 hskip]
    rfl

/-- Witness for amended C6: a BOGUS-severity event against a valid LOW
filter is skipped and processing completes cleanly. -/
theorem invalid_event_severity_skips_valid_filters_witness :
    (meetsSeverityThreshold evBogusSev.severity "LOW" =
      decide ("LOW" ∉ SEVERITY_LEVELS)) ∧
    ((∀ s ∈ envValidFilters.subsTable, s.severityFilter ∈ SEVERITY_LEVELS) →
      envValidFilters.eventsPutError = none →
      envValidFilters.subsQueryError = none →
      processEvent envValidFilters initState evBogusSev =
        ({ eventsTable :=
            [{ event := evBogusSev, processedAt := envValidFilters.now,
               status := "PROCESSED" }],
           notifications := [] }, .ok 0)) :=
  invalid_event_severity_skips_valid_filters envValidFilters evBogusSev "LOW"
    (by decide)

/-- C7 counterexample: an inactive subscription of the queried event type
is excluded by the store-side query — the retrieval is not
"active and inactive alike". -/
theorem findMatchingSubscriptions_excludes_inactive :
    subInactive.eventType = "deployment" ∧ subInactive.active = false ∧
    findMatchingSubscriptions envInactiveOnly "deployment" = .ok [] :=
  ⟨rfl, rfl, rfl⟩

/-- C7 (amended): when the store query succeeds, `findMatchingSubscriptions`
returns (never an error, empty when nothing matches) exactly the stored
subscriptions whose `eventType` equals the argument AND which are active:
the `active` filter is applied during retrieval, not left to the caller. -/
theorem findMatchingSubscriptions_returns_active_matches (env : Env)
    (et : String) (hq : env.subsQueryError = none) :
    ∃ subs, findMatchingSubscriptions env et = .ok subs ∧
      ∀ s, s ∈ subs ↔ (s ∈ env.subsTable ∧ s.eventType = et ∧ s.active = true) := by
  refine ⟨_, by unfold findMatchingSubscriptions; rw [hq], ?_⟩
  intro s
  constructor
  · intro hs
    rcases List.mem_filter.mp hs with ⟨h1, h2⟩
    simp only [Bool.and_eq_true, beq_iff_eq] at h2
    exact ⟨h1, h2.1, h2.2⟩
  · rintro ⟨h1, h2, h3⟩
    exact List.mem_filter.mpr ⟨h1, by simp [h2, h3]⟩

/-- Witness for amended C7 on the concrete one-inactive-subscription
store. -/
theorem findMatchingSubscriptions_returns_active_matches_witness :
    ∃ subs, findMatchingSubscriptions envInactiveOnly "deployment" = .ok subs ∧
      ∀ s, s ∈ subs ↔
        (s ∈ envInactiveOnly.subsTable ∧ s.eventType = "deployment" ∧
          s.active = true) :=
  findMatchingSubscriptions_returns_active_matches envInactiveOnly "deployment" rfl

/-- An unrecognized channel value falls through both dispatch branches
without error, whatever the transport oracles would answer. -/
theorem deliver_unknown_channel (env : Env) (s : Subscription) (e : Event)
    (hch1 : s.channel ≠ "EMAIL") (hch2 : s.channel ≠ "WEBHOOK") :
    deliver env s e = .ok () := by
  unfold deliver
  rw [if_neg (by simp [hch1]), if_neg (by simp [hch2])]

/-- C5 counterexample: an active, threshold-passing candidate with the
unrecognized channel `SMS`, in an environment where both transports are
broken, is neither failed nor skipped — a SENT record is written for it
and it is counted as a delivered notification. -/
theorem unknown_channel_recorded_sent_not_failed :
    processEvent envUnknownChannel initState evHigh =
      ({ eventsTable :=
          [{ event := evHigh, processedAt := "2024-01-01T00:00:01Z",
             status := "PROCESSED" }],
         notifications :=
          [{ eventId := "evt-1", subscriptionId := "sub-sms", channel := "SMS",
             target := "+15550100", status := "SENT",
             attemptedAt := "2024-01-01T00:00:01Z", errorMessage := none }] },
       .ok 1) ∧ "SENT" ≠ "FAILED" :=
  ⟨rfl, by decide⟩

/-- C5 (amended): a candidate whose channel is neither EMAIL nor WEBHOOK
makes no email and no webhook transport call, but is not failed and not
skipped: the try/catch returns without propagating (the remaining
candidates keep processing), appending one SENT record with no error
message, counted as a success. -/
theorem unknown_channel_silently_sent (env : Env) (e : Event) (st : ProcState)
    (s : Subscription) (hch1 : s.channel ≠ "EMAIL") (hch2 : s.channel ≠ "WEBHOOK")
    (hrecS : env.recordError s.subscriptionId "SENT" = none) :
    deliver env s e = .ok () ∧
    trySubscription env e st s =
      ({ st with notifications := st.notifications ++
          [{ eventId := e.eventId, subscriptionId := s.subscriptionId,
             channel := s.channel, target := s.target, status := "SENT",
             attemptedAt := env.now, errorMessage := none }] }, .ok true) := by
  have hdel := deliver_unknown_channel env s e hch1 hch2
  refine ⟨hdel, ?_⟩
  unfold trySubscription recordNotification
  rw [hdel, hrecS]
  rfl

/-- Witness for amended C5 on the concrete SMS candidate with both
transports broken. -/
theorem unknown_channel_silently_sent_witness :
    deliver envUnknownChannel subSmsLow evHigh = .ok () ∧
    trySubscription envUnknownChannel evHigh initState subSmsLow =
      ({ initState with notifications := initState.notifications ++
          [{ eventId := evHigh.eventId, subscriptionId := subSmsLow.subscriptionId,
             channel := subSmsLow.channel, target := subSmsLow.target,
             status := "SENT", attemptedAt := envUnknownChannel.now,
             errorMessage := none }] }, .ok true) :=
  unknown_channel_silently_sent envUnknownChannel evHigh initState subSmsLow
    (by decide) (by decide) rfl

/-- C10: an active, threshold-passing candidate with an unrecognized
channel triggers no transport call (`deliver` succeeds for every
environment, even with both transports broken), yet `processEvent` writes
a SENT record with no error message for it and counts it in the returned
success count. -/
theorem processEvent_unknown_channel_counted_sent (env : Env) (e : Event)
    (s : Subscription) (htable : env.subsTable = [s])
    (hch1 : s.channel ≠ "EMAIL") (hch2 : s.channel ≠ "WEBHOOK")
    (hact : s.active = true) (het : s.eventType = e.eventType)
    (hpass : meetsSeverityThreshold e.severity s.severityFilter = true)
    (hrecS : env.recordError s.subscriptionId "SENT" = none)
    (hput : env.eventsPutError = none) (hq : env.subsQueryError = none) :
    deliver env s e = .ok () ∧
    processEvent env initState e =
      ({ eventsTable :=
          [{ event := e, processedAt := env.now, status := "PROCESSED" }],
         notifications :=
          [{ eventId := e.eventId, subscriptionId := s.subscriptionId,
             channel := s.channel, target := s.target, status := "SENT",
             attemptedAt := env.now, errorMessage := none }] },
       .ok 1) := by
  have hdel := deliver_unknown_channel env s e hch1 hch2
  refine ⟨hdel, ?_⟩
  rw [processEvent_eq_loop env initState e hput hq, htable]
  have hcand : (List.filter (fun t => t.eventType == e.eventType && t.active) [s]) = [s] := by
    simp [List.filter_cons, het, hact]
  rw [hcand, processSubscriptions, if_pos hpass]
  have htry : trySubscription env e
      { initState with eventsTable :=
          initState.eventsTable ++
            [{ event := e, processedAt := env.now, status := "PROCESSED" }] } s =
      ({ eventsTable := [{ event := e, processedAt := env.now, status := "PROCESSED" }],
         notifications :=
          [{ eventId := e.eventId, subscriptionId := s.subscriptionId,
             channel := s.channel, target := s.target, status := "SENT",
             attemptedAt := env.now, errorMessage := none }] }, .ok true) := by
    unfold trySubscription recordNotification
    rw [hdel, hrecS]
    rfl
  rw [htry]
  rfl

/-- Witness for C10 on the concrete SMS candidate with both transports
broken. -/
theorem processEvent_unknown_channel_counted_sent_witness :
    deliver envUnknownChannel subSmsLow evHigh = .ok () ∧
    processEvent envUnknownChannel initState evHigh =
      ({ eventsTable :=
          [{ event := evHigh, processedAt := envUnknownChannel.now,
             status := "PROCESSED" }],
         notifications :=
          [{ eventId := evHigh.eventId, subscriptionId := subSmsLow.subscriptionId,
             channel := subSmsLow.channel, target := subSmsLow.target,
             status := "SENT", attemptedAt := envUnknownChannel.now,
             errorMessage := none }] },
       .ok 1) :=
  processEvent_unknown_channel_counted_sent envUnknownChannel evHigh subSmsLow
    rfl (by decide) (by decide) rfl rfl rfl rfl rfl rfl

/-- The error message thrown for a non-2xx webhook response is never the
empty string (it starts with a fixed prefix), so the truthiness check in
`recordNotification` keeps it. -/
theorem webhookFailedMessage_ne_empty (status : Nat) (statusText : String) :
    (("Webhook failed: " ++ toString status ++ " " ++ statusText) == "") = false := by
  apply beq_eq_false_iff_ne.mpr
  intro hcontra
  have hlen := congrArg String.length hcontra
  simp only [String.length_append] at hlen
  rw [show ("Webhook failed: " : String).length = 16 by decide,
    show (" " : String).length = 1 by decide,
    show ("" : String).length = 0 by decide] at hlen
  omega

/-- C9: for an active, threshold-passing WEBHOOK candidate whose endpoint
answers any non-2xx status, `processEvent` completes without propagating
an error, the event stays persisted as PROCESSED, and exactly one FAILED
record with the non-empty message `Webhook failed: status statusText` is
written for the pair. -/
theorem webhook_non2xx_records_failed (env : Env) (e : Event) (s : Subscription)
    (status : Nat) (statusText : String) (htable : env.subsTable = [s])
    (hch : s.channel = "WEBHOOK") (hact : s.active = true)
    (het : s.eventType = e.eventType)
    (hpass : meetsSeverityThreshold e.severity s.severityFilter = true)
    (hfetch : env.fetchResult s = .resolve status statusText)
    (hnok : responseOk status = false)
    (hrecF : env.recordError s.subscriptionId "FAILED" = none)
    (hput : env.eventsPutError = none) (hq : env.subsQueryError = none) :
    processEvent env initState e =
      ({ eventsTable :=
          [{ event := e, processedAt := env.now, status := "PROCESSED" }],
         notifications :=
          [{ eventId := e.eventId, subscriptionId := s.subscriptionId,
             channel := s.channel, target := s.target, status := "FAILED",
             attemptedAt := env.now,
             errorMessage :=
               some ("Webhook failed: " ++ toString status ++ " " ++ statusText) }] },
       .ok 0) := by
  have hdel : deliver env s e =
      .error ("Webhook failed: " ++ toString status ++ " " ++ statusText) := by
    unfold deliver sendWebhookNotification
    rw [hch, hfetch]
    simp [hnok]
  rw [processEvent_eq_loop env initState e hput hq, htable]
  have hcand : (List.filter (fun t => t.eventType == e.eventType && t.active) [s]) = [s] := by
    simp [List.filter_cons, het, hact]
  rw [hcand, processSubscriptions, if_pos hpass]
  have htry : trySubscription env e
      { initState with eventsTable :=
          initState.eventsTable ++
            [{ event := e, processedAt := env.now, status := "PROCESSED" }] } s =
      ({ eventsTable := [{ event := e, processedAt := env.now, status := "PROCESSED" }],
         notifications :=
          [{ eventId := e.eventId, subscriptionId := s.subscriptionId,
             channel := s.channel, target := s.target, status := "FAILED",
             attemptedAt := env.now,
             errorMessage :=
               some ("Webhook failed: " ++ toString status ++ " " ++ statusText) }] },
       .ok false) := by
    unfold trySubscription recordNotification mkNotificationRecord
    rw [hdel, hrecF]
    simp [webhookFailedMessage_ne_empty status statusText, initState]
  rw [htry]
  rfl

/-- Witness for C9: the concrete webhook candidate whose endpoint answers
HTTP 500. -/
theorem webhook_non2xx_records_failed_witness :
    processEvent envWebhook500 initState evHigh =
      ({ eventsTable :=
          [{ event := evHigh, processedAt := envWebhook500.now,
             status := "PROCESSED" }],
         notifications :=
          [{ eventId := evHigh.eventId, subscriptionId := subWebhookLow.subscriptionId,
             channel := subWebhookLow.channel, target := subWebhookLow.target,
             status := "FAILED", attemptedAt := envWebhook500.now,
             errorMessage :=
               some ("Webhook failed: " ++ toString 500 ++ " " ++ "Internal Server Error") }] },
       .ok 0) :=
  webhook_non2xx_records_failed envWebhook500 evHigh subWebhookLow 500
    "Internal Server Error" rfl rfl rfl rfl rfl rfl (by decide) rfl rfl rfl

end Processor
